import Mathlib

/-!
# Verification of the httpPractice task service

The repository holds two variants of the same in-memory task service:
a first variant built on a package-level map (`addTask`, `getTasks`,
`updateTask`, `archiveTask`, `handlerTaskByID`), embedded below in
namespace `V1`, and a second variant built around a `Server` that talks
to a `Saver` interface implemented by `MapDB`, embedded in namespace `V2`.

Modelling conventions:
* `time.Time` is modelled as `Nat`; the Go zero time is `0`; each handler
  samples the clock once, so every `time.Now()` call inside one handler
  invocation is the same explicit `now` argument.
* The Go `map[string]Task` is modelled as an association list with
  overwrite-on-insert semantics (`Store`, `lookupTask`, `insertTask`).
* JSON decoding is an external collaborator: a request body arrives
  already decoded as `Except Unit α` (`Except.error` = decode failure).
  The dynamic `map[string]interface{}` payload of an update is modelled
  by `UpdatePayload`: a field is `some s` exactly when the JSON object
  holds that key with a string value (the `.(string)` type assertion
  succeeds), and `none` when the key is absent or has another type.
* HTTP responses are modelled by their status code (`Nat`), paired with
  the store left behind by the handler.
-/

namespace HttpPractice

/-- The `Task` record (identical in both variants of the source). -/
structure Task where
  id : String
  title : String
  status : String
  createdAt : Nat
  updatedAt : Nat
  archivedAt : Nat
deriving Repr, DecidableEq

/-- The Go `map[string]Task`, as an association list with unique-key
overwrite-on-insert semantics. -/
abbrev Store := List (String × Task)

/-- Go map lookup `tasks[id]` (the `ok` of the two-value form is
`Option.isSome`). -/
def lookupTask : Store → String → Option Task
  | [], _ => none
  | (k, t) :: rest, id => if k = id then some t else lookupTask rest id

/-- Go map assignment `tasks[id] = t`: overwrite the binding when the key
is present, append it otherwise. -/
def insertTask : Store → String → Task → Store
  | [], id, t => [(id, t)]
  | (k, u) :: rest, id, t =>
    if k = id then (id, t) :: rest else (k, u) :: insertTask rest id t

/-- The sparse partial-update body: each field is present-with-a-string
or effectively absent (absent key, or a non-string value that the
`.(string)` type assertion rejects). -/
structure UpdatePayload where
  title : Option String
  status : Option String
deriving Repr, DecidableEq

theorem lookupTask_insertTask (s : Store) (id k : String) (t : Task) :
    lookupTask (insertTask s id t) k =
      if id = k then some t else lookupTask s k := by
  induction s with
  | nil => simp [insertTask, lookupTask]
  | cons hd rest ih =>
    obtain ⟨a, u⟩ := hd
    by_cases hai : a = id
    · subst hai
      simp only [insertTask, if_pos rfl, lookupTask]
      by_cases hak : a = k
      · subst hak; simp
      · simp [hak]
    · simp only [insertTask, if_neg hai, lookupTask]
      by_cases hak : a = k
      · subst hak
        have : ¬ id = a := fun h => hai h.symm
        simp [this]
      · simp [hak, ih]

theorem lookupTask_insertTask_self (s : Store) (id : String) (t : Task) :
    lookupTask (insertTask s id t) id = some t := by
  simp [lookupTask_insertTask]

theorem lookupTask_insertTask_isSome (s : Store) (id k : String) (t : Task)
    (h : (lookupTask s k).isSome) :
    (lookupTask (insertTask s id t) k).isSome := by
  rw [lookupTask_insertTask]
  by_cases hik : id = k
  · simp [hik]
  · simpa [hik] using h

namespace V1

/-- HTTP methods dispatched by `handlerTaskByID`. -/
inductive Method where
  | get
  | put
  | delete
deriving Repr, DecidableEq

/-- `getTasks`: builds the response list by ranging over the map and
leaves the map untouched (the returned store makes the frame explicit). -/
def getTasks (tasks : Store) : List Task × Store :=
  (tasks.map (fun p => p.2), tasks)

/-- `addTask`: a decode failure answers 400 and returns before any
mutation; otherwise the decoded payload's id, timestamps and status are
overwritten (`uuid.New()` supplies `freshId`), the task is stored under
its new id, and the handler answers 201 with the created record. -/
def addTask (body : Except Unit Task) (freshId : String) (now : Nat)
    (tasks : Store) : Nat × Option Task × Store :=
  match body with
  | Except.error _ => (400, none, tasks)
  | Except.ok task0 =>
    let task := { task0 with
      id := freshId, createdAt := now, updatedAt := now, status := "new" }
    (201, some task, insertTask tasks task.id task)

/-- `archiveTask`: sets status to `"archived"`, stamps `archivedAt` and
`updatedAt`, stores the record back under `task.ID`, answers 204. -/
def archiveTask (now : Nat) (task : Task) (tasks : Store) : Nat × Store :=
  let task1 := { task with
    status := "archived", archivedAt := now, updatedAt := now }
  (204, insertTask tasks task1.id task1)

/-- `updateTask`: on a decode failure the handler writes a 400 response
but, having no `return` there, still falls through; the (then empty)
payload is merged field by field, `updatedAt` is stamped, and the record
is stored back under `task.ID`. -/
def updateTask (body : Except Unit UpdatePayload) (now : Nat) (task : Task)
    (tasks : Store) : Nat × Store :=
  let failed : Bool := match body with
    | Except.error _ => true
    | Except.ok _ => false
  let updateData : UpdatePayload := match body with
    | Except.error _ => ⟨none, none⟩
    | Except.ok d => d
  let task1 := match updateData.title with
    | some t => { task with title := t }
    | none => task
  let task2 := match updateData.status with
    | some st => { task1 with status := st }
    | none => task1
  let task3 := { task2 with updatedAt := now }
  (if failed then 400 else 200, insertTask tasks task3.id task3)

/-- `handlerTaskByID`: trims the id from the path, answers 404 when the
id is absent from the map, and otherwise dispatches on the method. -/
def handlerTaskByID (tasks : Store) (id : String) (method : Method)
    (body : Except Unit UpdatePayload) (now : Nat) : Nat × Store :=
  match lookupTask tasks id with
  | none => (404, tasks)
  | some task =>
    match method with
    | Method.get => (200, tasks)
    | Method.delete => archiveTask now task tasks
    | Method.put => updateTask body now task tasks

end V1

/-- The `github.com/google/uuid` library is an external collaborator;
`uuid.New().String()` is modelled as a deterministic fresh-id supplier
drawing from a counter, whose rendered ids are pairwise distinct (the
contract the code relies on). -/
def uuidNew (g : Nat) : String × Nat :=
  (String.mk (List.replicate g 'u'), g + 1)

theorem uuidNew_injective (a b : Nat) (h : (uuidNew a).1 = (uuidNew b).1) :
    a = b := by
  have h2 : List.replicate a 'u' = List.replicate b 'u' := by
    injection h
  have := congrArg List.length h2
  simpa using this

namespace V1

/-- A sequence of POST /tasks requests against the first variant: each
successfully decoded body consumes a fresh uuid and runs `addTask`;
returns the created records (the handler echoes each one), the final
store and the final generator state. -/
def runCreates (bodies : List (Except Unit Task)) (g : Nat) (now : Nat)
    (tasks : Store) : List Task × Store × Nat :=
  match bodies with
  | [] => ([], tasks, g)
  | body :: rest =>
    match body with
    | Except.error _ =>
      runCreates rest g now tasks
    | Except.ok payload =>
      let fresh := uuidNew g
      let r := addTask (Except.ok payload) fresh.1 now tasks
      let next := runCreates rest fresh.2 now r.2.2
      ((r.2.1.getD payload) :: next.1, next.2.1, next.2.2)

end V1

namespace V2

/-- `MapDB.GetAllTasks`: ranges over the map collecting every record;
never fails. -/
def MapDB.GetAllTasks (data : Store) : List Task :=
  data.map (fun p => p.2)

/-- `MapDB.AddTasks`: for each decoded task, overwrites its timestamps
and status but keeps the client-supplied `ID`, then stores it under that
id; never fails. -/
def MapDB.AddTasks (data : Store) (tasks : List Task) (now : Nat) : Store :=
  tasks.foldl
    (fun d task =>
      let task1 := { task with
        createdAt := now, updatedAt := now, status := "recently-created" }
      insertTask d task1.id task1)
    data

/-- `MapDB.GetTask`: the record, or the error `"not found"`. -/
def MapDB.GetTask (data : Store) (id : String) : Except String Task :=
  match lookupTask data id with
  | none => Except.error "not found"
  | some task => Except.ok task

/-- `MapDB.UpdateTask`: merges `title` and `status` when present with a
string value, then unconditionally overwrites the status with
`"recently-updated"`, stamps `updatedAt`, stores the record back and
returns it; `"not found"` when the id is absent. -/
def MapDB.UpdateTask (data : Store) (payload : UpdatePayload) (id : String)
    (now : Nat) : Except String (Task × Store) :=
  match lookupTask data id with
  | none => Except.error "not found"
  | some task =>
    let task1 := match payload.title with
      | some t => { task with title := t }
      | none => task
    let task2 := match payload.status with
      | some st => { task1 with status := st }
      | none => task1
    let task3 := { task2 with status := "recently-updated", updatedAt := now }
    Except.ok (task3, insertTask data id task3)

/-- `MapDB.ArchiveTask`: stamps `archivedAt` and `updatedAt`, sets status
to `"archived"`, stores the record back; `"not found"` when absent. -/
def MapDB.ArchiveTask (data : Store) (id : String) (now : Nat) :
    Except String Store :=
  match lookupTask data id with
  | none => Except.error "not found"
  | some task =>
    let task1 := { task with
      archivedAt := now, updatedAt := now, status := "archived" }
    Except.ok (insertTask data id task1)

/-- `Server.GetTask`: any store error (including `"not found"`) is
surfaced as a 500 `DB error` response; success answers 200. -/
def Server.GetTask (data : Store) (id : String) : Nat × Store :=
  match MapDB.GetTask data id with
  | Except.error _ => (500, data)
  | Except.ok _ => (200, data)

/-- `Server.GetAllTasks`: answers 200 with every record; the store is
returned to make the frame explicit. -/
def Server.GetAllTasks (data : Store) : Nat × List Task × Store :=
  (200, MapDB.GetAllTasks data, data)

/-- `Server.AddTasks`: the decode error of the body is discarded, so a
failed decode leaves the slice empty; always answers 200 with a count
message. -/
def Server.AddTasks (data : Store) (body : Except Unit (List Task))
    (now : Nat) : Nat × Store :=
  let tasks : List Task := match body with
    | Except.error _ => []
    | Except.ok l => l
  (200, MapDB.AddTasks data tasks now)

/-- `Server.UpdateTask`: the decode error of the body is discarded (the
map stays empty); a store error is surfaced as 500, success as 201. -/
def Server.UpdateTask (data : Store) (body : Except Unit UpdatePayload)
    (id : String) (now : Nat) : Nat × Store :=
  let newData : UpdatePayload := match body with
    | Except.error _ => ⟨none, none⟩
    | Except.ok d => d
  match MapDB.UpdateTask data newData id now with
  | Except.error _ => (500, data)
  | Except.ok r => (201, r.2)

/-- `Server.ArchiveTask`: a store error is surfaced as 500, success as
204. -/
def Server.ArchiveTask (data : Store) (id : String) (now : Nat) :
    Nat × Store :=
  match MapDB.ArchiveTask data id now with
  | Except.error _ => (500, data)
  | Except.ok data1 => (204, data1)

end V2

namespace V1

/-- One inbound request against the first variant. -/
inductive Op where
  | create (body : Except Unit Task)
  | update (id : String) (body : Except Unit UpdatePayload)
  | archive (id : String)
  | get (id : String)
  | list

/-- The package-level mutable state of the first variant: the task map
plus the uuid supply. -/
structure Sys where
  tasks : Store
  gen : Nat

/-- Dispatch of one request at instant `now`. A uuid is drawn only after
a create body decodes, exactly as `addTask` calls `uuid.New()` after the
decode succeeds; GET/PUT/DELETE go through `handlerTaskByID`. -/
def step (s : Sys) (op : Op) (now : Nat) : Sys :=
  match op with
  | Op.create body =>
    match body with
    | Except.error _ => s
    | Except.ok payload =>
      let fresh := uuidNew s.gen
      { tasks := (addTask (Except.ok payload) fresh.1 now s.tasks).2.2,
        gen := fresh.2 }
  | Op.update id body =>
    { s with tasks := (handlerTaskByID s.tasks id Method.put body now).2 }
  | Op.archive id =>
    { s with tasks :=
        (handlerTaskByID s.tasks id Method.delete (Except.ok ⟨none, none⟩) now).2 }
  | Op.get id =>
    { s with tasks :=
        (handlerTaskByID s.tasks id Method.get (Except.ok ⟨none, none⟩) now).2 }
  | Op.list =>
    { s with tasks := (getTasks s.tasks).2 }

/-- Run a whole request trace, each request with its own instant. -/
def runOps (s : Sys) (ops : List (Op × Nat)) : Sys :=
  match ops with
  | [] => s
  | (op, now) :: rest => runOps (step s op now) rest

/-- The store written back by `updateTask` is always an overwrite of the
looked-up task's key with a record that keeps its id, `createdAt` and
`archivedAt` and carries `updatedAt = now`, whatever the body was. -/
theorem updateTask_store (body : Except Unit UpdatePayload) (now : Nat)
    (task : Task) (tasks : Store) :
    ∃ t1 : Task, t1.id = task.id ∧ t1.createdAt = task.createdAt ∧
      t1.archivedAt = task.archivedAt ∧ t1.updatedAt = now ∧
      (updateTask body now task tasks).2 = insertTask tasks task.id t1 := by
  rcases body with _ | d
  · exact ⟨{ task with updatedAt := now }, rfl, rfl, rfl, rfl, rfl⟩
  · rcases d with ⟨t, st⟩
    rcases t with _ | t <;> rcases st with _ | st
    · exact ⟨{ task with updatedAt := now }, rfl, rfl, rfl, rfl, rfl⟩
    · exact ⟨{ task with status := st, updatedAt := now },
        rfl, rfl, rfl, rfl, rfl⟩
    · exact ⟨{ task with title := t, updatedAt := now },
        rfl, rfl, rfl, rfl, rfl⟩
    · exact ⟨{ task with title := t, status := st, updatedAt := now },
        rfl, rfl, rfl, rfl, rfl⟩

theorem handlerTaskByID_preserves_isSome (tasks : Store) (id : String)
    (m : Method) (body : Except Unit UpdatePayload) (now : Nat) (k : String)
    (h : (lookupTask tasks k).isSome) :
    (lookupTask (handlerTaskByID tasks id m body now).2 k).isSome := by
  unfold handlerTaskByID
  cases hl : lookupTask tasks id with
  | none => simpa using h
  | some task =>
    cases m with
    | get => simpa using h
    | delete =>
      simpa [archiveTask] using lookupTask_insertTask_isSome tasks _ k _ h
    | put =>
      obtain ⟨t1, -, -, -, -, hstore⟩ := updateTask_store body now task tasks
      simpa [hstore] using lookupTask_insertTask_isSome tasks task.id k t1 h

theorem step_preserves_isSome (s : Sys) (op : Op) (now : Nat) (k : String)
    (h : (lookupTask s.tasks k).isSome) :
    (lookupTask (step s op now).tasks k).isSome := by
  cases op with
  | create body =>
    cases body with
    | error e => simpa [step] using h
    | ok payload =>
      simpa [step, addTask] using
        lookupTask_insertTask_isSome s.tasks _ k _ h
  | update id body =>
    simpa [step] using handlerTaskByID_preserves_isSome s.tasks id Method.put body now k h
  | archive id =>
    simpa [step] using
      handlerTaskByID_preserves_isSome s.tasks id Method.delete (Except.ok ⟨none, none⟩) now k h
  | get id =>
    simpa [step] using
      handlerTaskByID_preserves_isSome s.tasks id Method.get (Except.ok ⟨none, none⟩) now k h
  | list => simpa [step, getTasks] using h

theorem runOps_preserves_isSome (ops : List (Op × Nat)) (s : Sys) (k : String)
    (h : (lookupTask s.tasks k).isSome) :
    (lookupTask (runOps s ops).tasks k).isSome := by
  induction ops generalizing s with
  | nil => simpa [runOps] using h
  | cons hd rest ih =>
    obtain ⟨op, now⟩ := hd
    exact ih (step s op now) (step_preserves_isSome s op now k h)

/-- Number of create bodies that decode successfully (each consumes one
uuid). -/
def okCount : List (Except Unit Task) → Nat
  | [] => 0
  | Except.error _ :: rest => okCount rest
  | Except.ok _ :: rest => okCount rest + 1

theorem runCreates_ids (bodies : List (Except Unit Task)) (g now : Nat)
    (tasks : Store) :
    (runCreates bodies g now tasks).1.map Task.id =
      (List.range' g (okCount bodies)).map (fun k => (uuidNew k).1) := by
  induction bodies generalizing g tasks with
  | nil => simp [runCreates, okCount]
  | cons body rest ih =>
    cases body with
    | error e => simpa [runCreates, okCount] using ih g tasks
    | ok payload =>
      simp only [runCreates, okCount, addTask, List.range'_succ, List.map_cons,
        List.map_map]
      exact congrArg (fun l => (uuidNew g).1 :: l) (ih (g + 1) _)

end V1

/-! ## Concrete fixtures for witnesses and counterexamples -/

/-- A concrete stored task. -/
def sampleTask : Task := ⟨"a", "t", "s", 1, 1, 0⟩

/-- A store holding `sampleTask` under key `"a"`. -/
def sampleStore : Store := [("a", sampleTask)]

/-- A creation payload carrying a client-supplied `archived_at = 7`. -/
def archPayload : Task := ⟨"cid", "T", "done", 9, 9, 7⟩

/-! ## C1 — partial-update merge semantics -/

/-- C1 (counterexample): the claim "an Update whose payload contains only
a title leaves the task's status unchanged" is false for
`MapDB.UpdateTask`: updating the stored task (status `"s"`) with the
title-only payload yields status `"recently-updated"`, not `"s"`. -/
theorem mapdb_update_overwrites_status :
    V2.MapDB.UpdateTask sampleStore ⟨some "x", none⟩ "a" 2 =
      Except.ok (⟨"a", "x", "recently-updated", 1, 2, 0⟩,
        [("a", ⟨"a", "x", "recently-updated", 1, 2, 0⟩)]) ∧
    sampleTask.status = "s" ∧ ("recently-updated" : String) ≠ "s" := by
  refine ⟨rfl, rfl, by decide⟩

/-- C1 (amended): in the first variant, `updateTask` with a title-only
payload leaves status untouched and with a status-only payload leaves
title untouched; in the second variant, `MapDB.UpdateTask` merges a
present title and leaves an absent title untouched, but always overwrites
status with the `"recently-updated"` marker, whatever the payload. -/
theorem update_partial_merge (tasks : Store) (id : String) (task : Task)
    (now : Nat) (x y : String) (h : lookupTask tasks id = some task) :
    (lookupTask (V1.updateTask (Except.ok ⟨some x, none⟩) now task tasks).2 task.id
      = some { task with title := x, updatedAt := now }) ∧
    (lookupTask (V1.updateTask (Except.ok ⟨none, some y⟩) now task tasks).2 task.id
      = some { task with status := y, updatedAt := now }) ∧
    (V2.MapDB.UpdateTask tasks ⟨some x, none⟩ id now =
      Except.ok
        ({ task with title := x, status := "recently-updated", updatedAt := now },
         insertTask tasks id
           { task with title := x, status := "recently-updated", updatedAt := now })) ∧
    (V2.MapDB.UpdateTask tasks ⟨none, some y⟩ id now =
      Except.ok
        ({ task with status := "recently-updated", updatedAt := now },
         insertTask tasks id
           { task with status := "recently-updated", updatedAt := now })) := by
  refine ⟨?_, ?_, ?_, ?_⟩
  · exact lookupTask_insertTask_self tasks task.id _
  · exact lookupTask_insertTask_self tasks task.id _
  · simp [V2.MapDB.UpdateTask, h]
  · simp [V2.MapDB.UpdateTask, h]

/-- C1 (witness): `update_partial_merge` applied to the sample store. -/
theorem update_partial_merge_applied :
    (lookupTask (V1.updateTask (Except.ok ⟨some "x", none⟩) 5 sampleTask sampleStore).2
        sampleTask.id = some { sampleTask with title := "x", updatedAt := 5 }) ∧
    (lookupTask (V1.updateTask (Except.ok ⟨none, some "y"⟩) 5 sampleTask sampleStore).2
        sampleTask.id = some { sampleTask with status := "y", updatedAt := 5 }) ∧
    (V2.MapDB.UpdateTask sampleStore ⟨some "x", none⟩ "a" 5 =
      Except.ok
        ({ sampleTask with title := "x", status := "recently-updated", updatedAt := 5 },
         insertTask sampleStore "a"
           { sampleTask with title := "x", status := "recently-updated", updatedAt := 5 })) ∧
    (V2.MapDB.UpdateTask sampleStore ⟨none, some "y"⟩ "a" 5 =
      Except.ok
        ({ sampleTask with status := "recently-updated", updatedAt := 5 },
         insertTask sampleStore "a"
           { sampleTask with status := "recently-updated", updatedAt := 5 })) :=
  update_partial_merge sampleStore "a" sampleTask 5 "x" "y" (by decide)

/-! ## C2 — fresh unique ids at creation -/

/-- C2 (counterexample): `MapDB.AddTasks` does not ignore the
client-supplied id: two creates carrying the same id `"dup"` end up as a
single record stored under that very id, so the created ids are neither
fresh nor pairwise distinct. -/
theorem mapdb_addtasks_keeps_client_id :
    V2.MapDB.AddTasks []
        [{ sampleTask with id := "dup" }, { sampleTask with id := "dup", title := "second" }] 3
      = [("dup", ⟨"dup", "second", "recently-created", 3, 3, 0⟩)] := by
  decide

/-- C2 (amended): in the first variant every create draws a fresh uuid,
so across any sequence of creates the ids of the created tasks are
pairwise distinct; in the second variant `MapDB.AddTasks` overrides
status and timestamps but stores each record under its client-supplied
id, assigning no fresh id. -/
theorem create_fresh_ids (bodies : List (Except Unit Task)) (g now : Nat)
    (tasks data : Store) (task : Task) (ts : List Task) :
    ((V1.runCreates bodies g now tasks).1.map Task.id).Pairwise (fun a b => a ≠ b) ∧
    (V2.MapDB.AddTasks data (task :: ts) now =
      V2.MapDB.AddTasks
        (insertTask data task.id
          { task with createdAt := now, updatedAt := now, status := "recently-created" })
        ts now) := by
  constructor
  · rw [V1.runCreates_ids]
    refine List.Pairwise.map _ ?_ (List.pairwise_lt_range' g (V1.okCount bodies))
    intro a b hab heq
    exact Nat.ne_of_lt hab (uuidNew_injective a b heq)
  · rfl

/-! ## C3 — NotFound signalling and its HTTP surface -/

/-- C3 (counterexample): the claim "the NotFound error is surfaced to the
client as HTTP status 404" is false for the second variant: on an id
absent from the store, `Server.GetTask`, `Server.UpdateTask` and
`Server.ArchiveTask` all answer 500, not 404. -/
theorem server_surfaces_notfound_as_500 :
    lookupTask [] "a" = none ∧
    (V2.Server.GetTask [] "a").1 = 500 ∧
    (V2.Server.UpdateTask [] (Except.ok ⟨some "x", none⟩) "a" 2).1 = 500 ∧
    (V2.Server.ArchiveTask [] "a" 2).1 = 500 ∧
    (500 : Nat) ≠ 404 := by
  decide

/-- C3 (amended): on an id absent from the store, both variants signal
NotFound at store level — the first variant's `handlerTaskByID` answers
404 for GET, PUT and DELETE alike, and every `MapDB` operation returns
the `"not found"` error — but the second variant's `Server` surfaces that
error as HTTP 500 (a generic DB error), not 404. -/
theorem absent_id_not_found (tasks : Store) (id : String) (m : V1.Method)
    (body : Except Unit UpdatePayload) (d : UpdatePayload) (now : Nat)
    (h : lookupTask tasks id = none) :
    V1.handlerTaskByID tasks id m body now = (404, tasks) ∧
    V2.MapDB.GetTask tasks id = Except.error "not found" ∧
    V2.MapDB.UpdateTask tasks d id now = Except.error "not found" ∧
    V2.MapDB.ArchiveTask tasks id now = Except.error "not found" ∧
    (V2.Server.GetTask tasks id).1 = 500 ∧
    (V2.Server.UpdateTask tasks body id now).1 = 500 ∧
    (V2.Server.ArchiveTask tasks id now).1 = 500 := by
  refine ⟨?_, ?_, ?_, ?_, ?_, ?_, ?_⟩
  · simp [V1.handlerTaskByID, h]
  · simp [V2.MapDB.GetTask, h]
  · simp [V2.MapDB.UpdateTask, h]
  · simp [V2.MapDB.ArchiveTask, h]
  · simp [V2.Server.GetTask, V2.MapDB.GetTask, h]
  · rcases body with _ | d2 <;>
      simp [V2.Server.UpdateTask, V2.MapDB.UpdateTask, h]
  · simp [V2.Server.ArchiveTask, V2.MapDB.ArchiveTask, h]

/-- C3 (witness): `absent_id_not_found` applied to the sample store and
the absent id `"zzz"`. -/
theorem absent_id_not_found_applied :
    V1.handlerTaskByID sampleStore "zzz" V1.Method.get (Except.ok ⟨none, none⟩) 0
        = (404, sampleStore) ∧
    V2.MapDB.GetTask sampleStore "zzz" = Except.error "not found" ∧
    V2.MapDB.UpdateTask sampleStore ⟨none, none⟩ "zzz" 0 = Except.error "not found" ∧
    V2.MapDB.ArchiveTask sampleStore "zzz" 0 = Except.error "not found" ∧
    (V2.Server.GetTask sampleStore "zzz").1 = 500 ∧
    (V2.Server.UpdateTask sampleStore (Except.ok ⟨none, none⟩) "zzz" 0).1 = 500 ∧
    (V2.Server.ArchiveTask sampleStore "zzz" 0).1 = 500 :=
  absent_id_not_found sampleStore "zzz" V1.Method.get (Except.ok ⟨none, none⟩)
    ⟨none, none⟩ 0 (by decide)

/-! ## C4 — Archive semantics -/

/-- C4: on an id present in the store, Archive (in both variants) sets
the status to `"archived"` and stamps both `archivedAt` and `updatedAt`
with the current instant; there is no guard for an already-archived task:
a second Archive at a later instant `now2` re-applies the `"archived"`
status and refreshes both timestamps. -/
theorem archive_sets_marker_and_times (tasks : Store) (id : String)
    (task : Task) (now now2 : Nat) (h : lookupTask tasks id = some task) :
    ((V1.archiveTask now task tasks).1 = 204 ∧
      lookupTask (V1.archiveTask now task tasks).2 task.id =
        some { task with status := "archived", archivedAt := now, updatedAt := now }) ∧
    (V2.MapDB.ArchiveTask tasks id now =
      Except.ok (insertTask tasks id
        { task with status := "archived", archivedAt := now, updatedAt := now })) ∧
    (∀ s2, V2.MapDB.ArchiveTask tasks id now = Except.ok s2 →
      V2.MapDB.ArchiveTask s2 id now2 =
        Except.ok (insertTask s2 id
          { task with status := "archived", archivedAt := now2, updatedAt := now2 })) := by
  have h2 : V2.MapDB.ArchiveTask tasks id now =
      Except.ok (insertTask tasks id
        { task with status := "archived", archivedAt := now, updatedAt := now }) := by
    simp [V2.MapDB.ArchiveTask, h]
  refine ⟨⟨rfl, lookupTask_insertTask_self tasks task.id _⟩, h2, ?_⟩
  intro s2 hs2
  rw [h2] at hs2
  cases hs2
  simp [V2.MapDB.ArchiveTask, lookupTask_insertTask_self]

/-- C4 (witness): `archive_sets_marker_and_times` on the sample store. -/
theorem archive_sets_marker_and_times_applied :
    ((V1.archiveTask 4 sampleTask sampleStore).1 = 204 ∧
      lookupTask (V1.archiveTask 4 sampleTask sampleStore).2 sampleTask.id =
        some { sampleTask with status := "archived", archivedAt := 4, updatedAt := 4 }) ∧
    (V2.MapDB.ArchiveTask sampleStore "a" 4 =
      Except.ok (insertTask sampleStore "a"
        { sampleTask with status := "archived", archivedAt := 4, updatedAt := 4 })) ∧
    (∀ s2, V2.MapDB.ArchiveTask sampleStore "a" 4 = Except.ok s2 →
      V2.MapDB.ArchiveTask s2 "a" 6 =
        Except.ok (insertTask s2 "a"
          { sampleTask with status := "archived", archivedAt := 6, updatedAt := 6 })) :=
  archive_sets_marker_and_times sampleStore "a" sampleTask 4 6 (by decide)

/-! ## C5 — archived_at discipline -/

/-- C5 (counterexample): the claim "a task freshly created by Create has
archived_at zero/unset regardless of the creation payload" is false in
both variants: neither `addTask` nor `MapDB.AddTasks` clears a
client-supplied `archived_at`, so creating from a payload with
`archived_at = 7` stores a never-archived task whose `archived_at` is 7. -/
theorem create_keeps_payload_archivedAt :
    ((V1.addTask (Except.ok archPayload) "fresh" 3 []).2.1.map Task.archivedAt
        = some 7) ∧
    ((lookupTask (V2.MapDB.AddTasks [] [archPayload] 3) "cid").map Task.archivedAt
        = some 7) ∧
    (7 : Nat) ≠ 0 := by
  decide

/-- C5 (amended): per operation, `archived_at` is written only by
Archive: Update (in both variants, any payload) leaves it unchanged and
Archive stamps it with the current instant; but Create does not ignore a
client-supplied `archived_at` — the freshly created record's
`archived_at` equals the creation payload's, so it is zero only when the
payload's is. -/
theorem archivedAt_operation_discipline (payload task : Task)
    (freshId id : String) (now : Nat) (tasks : Store)
    (body : Except Unit UpdatePayload) (d : UpdatePayload)
    (h : lookupTask tasks id = some task) :
    ((V1.addTask (Except.ok payload) freshId now tasks).2.1.map Task.archivedAt
        = some payload.archivedAt) ∧
    ((lookupTask (V2.MapDB.AddTasks tasks [payload] now) payload.id).map Task.archivedAt
        = some payload.archivedAt) ∧
    ((lookupTask (V1.updateTask body now task tasks).2 task.id).map Task.archivedAt
        = some task.archivedAt) ∧
    (∀ t2 s2, V2.MapDB.UpdateTask tasks d id now = Except.ok (t2, s2) →
        t2.archivedAt = task.archivedAt ∧
        (lookupTask s2 id).map Task.archivedAt = some task.archivedAt) ∧
    ((lookupTask (V1.archiveTask now task tasks).2 task.id).map Task.archivedAt
        = some now) ∧
    (∀ s2, V2.MapDB.ArchiveTask tasks id now = Except.ok s2 →
        (lookupTask s2 id).map Task.archivedAt = some now) := by
  refine ⟨rfl, ?_, ?_, ?_, ?_, ?_⟩
  · show (lookupTask (insertTask tasks payload.id _) payload.id).map Task.archivedAt = _
    rw [lookupTask_insertTask_self]
    rfl
  · obtain ⟨t1, -, -, harch, -, hstore⟩ := V1.updateTask_store body now task tasks
    rw [hstore, lookupTask_insertTask_self]
    simpa using harch
  · intro t2 s2 hok
    rcases d with ⟨t, st⟩
    rcases t with _ | t <;> rcases st with _ | st <;>
      · simp only [V2.MapDB.UpdateTask, h] at hok
        cases hok
        refine ⟨rfl, ?_⟩
        rw [lookupTask_insertTask_self]
        rfl
  · rw [show (V1.archiveTask now task tasks).2 =
        insertTask tasks task.id
          { task with status := "archived", archivedAt := now, updatedAt := now } from rfl,
      lookupTask_insertTask_self]
    rfl
  · intro s2 hs2
    simp only [V2.MapDB.ArchiveTask, h] at hs2
    cases hs2
    rw [lookupTask_insertTask_self]
    rfl

/-- C5 (witness): `archivedAt_operation_discipline` on the sample
store. -/
theorem archivedAt_operation_discipline_applied :
    ((V1.addTask (Except.ok archPayload) "fresh" 3 sampleStore).2.1.map Task.archivedAt
        = some archPayload.archivedAt) ∧
    ((lookupTask (V2.MapDB.AddTasks sampleStore [archPayload] 3) archPayload.id).map
        Task.archivedAt = some archPayload.archivedAt) ∧
    ((lookupTask (V1.updateTask (Except.ok ⟨some "x", none⟩) 3 sampleTask sampleStore).2
        sampleTask.id).map Task.archivedAt = some sampleTask.archivedAt) ∧
    (∀ t2 s2, V2.MapDB.UpdateTask sampleStore ⟨some "x", none⟩ "a" 3 = Except.ok (t2, s2) →
        t2.archivedAt = sampleTask.archivedAt ∧
        (lookupTask s2 "a").map Task.archivedAt = some sampleTask.archivedAt) ∧
    ((lookupTask (V1.archiveTask 3 sampleTask sampleStore).2 sampleTask.id).map
        Task.archivedAt = some 3) ∧
    (∀ s2, V2.MapDB.ArchiveTask sampleStore "a" 3 = Except.ok s2 →
        (lookupTask s2 "a").map Task.archivedAt = some 3) :=
  archivedAt_operation_discipline archPayload sampleTask "fresh" "a" 3 sampleStore
    (Except.ok ⟨some "x", none⟩) ⟨some "x", none⟩ (by decide)

/-! ## C6 — created_at is assigned once and never changes -/

/-- C6: Create stamps `created_at` with the creation instant, and neither
Update nor Archive (in either variant, any payload, decode failure
included) changes the record's `created_at`. -/
theorem createdAt_never_changes (payload task : Task) (freshId id : String)
    (now : Nat) (tasks : Store) (body : Except Unit UpdatePayload)
    (d : UpdatePayload) (h : lookupTask tasks id = some task) :
    ((V1.addTask (Except.ok payload) freshId now tasks).2.1.map Task.createdAt
        = some now) ∧
    ((lookupTask (V2.MapDB.AddTasks tasks [payload] now) payload.id).map Task.createdAt
        = some now) ∧
    ((lookupTask (V1.updateTask body now task tasks).2 task.id).map Task.createdAt
        = some task.createdAt) ∧
    ((lookupTask (V1.archiveTask now task tasks).2 task.id).map Task.createdAt
        = some task.createdAt) ∧
    (∀ t2 s2, V2.MapDB.UpdateTask tasks d id now = Except.ok (t2, s2) →
        t2.createdAt = task.createdAt ∧
        (lookupTask s2 id).map Task.createdAt = some task.createdAt) ∧
    (∀ s2, V2.MapDB.ArchiveTask tasks id now = Except.ok s2 →
        (lookupTask s2 id).map Task.createdAt = some task.createdAt) := by
  refine ⟨rfl, ?_, ?_, ?_, ?_, ?_⟩
  · show (lookupTask (insertTask tasks payload.id _) payload.id).map Task.createdAt = _
    rw [lookupTask_insertTask_self]
    rfl
  · obtain ⟨t1, -, hcreated, -, -, hstore⟩ := V1.updateTask_store body now task tasks
    rw [hstore, lookupTask_insertTask_self]
    simpa using hcreated
  · rw [show (V1.archiveTask now task tasks).2 =
        insertTask tasks task.id
          { task with status := "archived", archivedAt := now, updatedAt := now } from rfl,
      lookupTask_insertTask_self]
    rfl
  · intro t2 s2 hok
    rcases d with ⟨t, st⟩
    rcases t with _ | t <;> rcases st with _ | st <;>
      · simp only [V2.MapDB.UpdateTask, h] at hok
        cases hok
        refine ⟨rfl, ?_⟩
        rw [lookupTask_insertTask_self]
        rfl
  · intro s2 hs2
    simp only [V2.MapDB.ArchiveTask, h] at hs2
    cases hs2
    rw [lookupTask_insertTask_self]
    rfl

/-- C6 (witness): `createdAt_never_changes` on the sample store. -/
theorem createdAt_never_changes_applied :
    ((V1.addTask (Except.ok archPayload) "fresh" 3 sampleStore).2.1.map Task.createdAt
        = some 3) ∧
    ((lookupTask (V2.MapDB.AddTasks sampleStore [archPayload] 3) archPayload.id).map
        Task.createdAt = some 3) ∧
    ((lookupTask (V1.updateTask (Except.ok ⟨some "x", none⟩) 3 sampleTask sampleStore).2
        sampleTask.id).map Task.createdAt = some sampleTask.createdAt) ∧
    ((lookupTask (V1.archiveTask 3 sampleTask sampleStore).2 sampleTask.id).map
        Task.createdAt = some sampleTask.createdAt) ∧
    (∀ t2 s2, V2.MapDB.UpdateTask sampleStore ⟨some "x", none⟩ "a" 3 = Except.ok (t2, s2) →
        t2.createdAt = sampleTask.createdAt ∧
        (lookupTask s2 "a").map Task.createdAt = some sampleTask.createdAt) ∧
    (∀ s2, V2.MapDB.ArchiveTask sampleStore "a" 3 = Except.ok s2 →
        (lookupTask s2 "a").map Task.createdAt = some sampleTask.createdAt) :=
  createdAt_never_changes archPayload sampleTask "fresh" "a" 3 sampleStore
    (Except.ok ⟨some "x", none⟩) ⟨some "x", none⟩ (by decide)

/-! ## C7 — decode failure on Create/Update -/

/-- C7 (code bug): the claim says a body that fails to decode yields 400
and leaves the store unchanged. `addTask` does return 400 without
mutating, but `updateTask` writes the 400 response and then — missing the
`return` its own `addTask` has after `http.Error` — still refreshes the
stored record's `updated_at` and writes it back; and the second variant's
`Server.UpdateTask` discards the decode error entirely, answering 201
after applying the empty update, while `Server.AddTasks` answers 200. -/
theorem update_bad_input_still_mutates :
    (V1.addTask (Except.error ()) "fresh" 9 sampleStore = (400, none, sampleStore)) ∧
    (V1.updateTask (Except.error ()) 9 sampleTask sampleStore =
      (400, [("a", { sampleTask with updatedAt := 9 })])) ∧
    ({ sampleTask with updatedAt := 9 }).updatedAt ≠ sampleTask.updatedAt ∧
    ((V2.Server.UpdateTask sampleStore (Except.error ()) "a" 9).1 = 201) ∧
    (V2.Server.UpdateTask sampleStore (Except.error ()) "a" 9).2 ≠ sampleStore ∧
    (V2.Server.AddTasks [] (Except.error ()) 9 = (200, [])) := by
  refine ⟨rfl, rfl, by decide, rfl, ?_, rfl⟩
  intro hcontra
  have := congrArg (fun s => (lookupTask s "a").map Task.updatedAt) hcontra
  simp [V2.Server.UpdateTask, V2.MapDB.UpdateTask, sampleStore, sampleTask,
    lookupTask, insertTask] at this

/-! ## C8 — the store only grows; ListAll is the full snapshot -/

/-- C8: no operation removes a record. Over any request trace against the
first variant, an id present in the store stays present, and an id freshly
created by a successful Create is present from that step on; in the
second variant, AddTasks, Update and Archive likewise preserve every
present id. ListAll (both variants) returns exactly the records currently
held, live and archived. -/
theorem store_monotone_and_list_snapshot (s : V1.Sys) (ops : List (V1.Op × Nat))
    (id : String) (payload : Task) (now2 : Nat) (data : Store)
    (ts : List Task) (d : UpdatePayload) (now : Nat)
    (h : (lookupTask s.tasks id).isSome) :
    (lookupTask (V1.runOps s ops).tasks id).isSome ∧
    (lookupTask
        (V1.step s (V1.Op.create (Except.ok payload)) now2).tasks
        (uuidNew s.gen).1).isSome ∧
    (V1.getTasks (V1.runOps s ops).tasks).1 =
      (V1.runOps s ops).tasks.map (fun p => p.2) ∧
    (∀ k, (lookupTask data k).isSome →
        (lookupTask (V2.MapDB.AddTasks data ts now) k).isSome) ∧
    (∀ k r, V2.MapDB.UpdateTask data d k now = Except.ok r →
        ∀ k2, (lookupTask data k2).isSome → (lookupTask r.2 k2).isSome) ∧
    (∀ k s2, V2.MapDB.ArchiveTask data k now = Except.ok s2 →
        ∀ k2, (lookupTask data k2).isSome → (lookupTask s2 k2).isSome) ∧
    (V2.MapDB.GetAllTasks data = data.map (fun p => p.2)) := by
  refine ⟨V1.runOps_preserves_isSome ops s id h, ?_, rfl, ?_, ?_, ?_, rfl⟩
  · show (lookupTask (insertTask s.tasks (uuidNew s.gen).1 _) (uuidNew s.gen).1).isSome
    rw [lookupTask_insertTask_self]
    rfl
  · intro k hk
    induction ts generalizing data with
    | nil => exact hk
    | cons t rest ih =>
      exact ih (insertTask data t.id _) (lookupTask_insertTask_isSome data t.id k _ hk)
  · intro k r hok k2 hk2
    cases hlk : lookupTask data k with
    | none => simp [V2.MapDB.UpdateTask, hlk] at hok
    | some task =>
      rcases d with ⟨t, st⟩
      rcases t with _ | t <;> rcases st with _ | st <;>
        · simp only [V2.MapDB.UpdateTask, hlk] at hok
          cases hok
          exact lookupTask_insertTask_isSome data k k2 _ hk2
  · intro k s2 hok k2 hk2
    cases hlk : lookupTask data k with
    | none => simp [V2.MapDB.ArchiveTask, hlk] at hok
    | some task =>
      simp only [V2.MapDB.ArchiveTask, hlk] at hok
      cases hok
      exact lookupTask_insertTask_isSome data k k2 _ hk2

/-- C8 (witness): `store_monotone_and_list_snapshot` on the sample store
and a two-request trace (archive then update of the stored id). -/
theorem store_monotone_and_list_snapshot_applied :
    (lookupTask
        (V1.runOps ⟨sampleStore, 0⟩
          [(V1.Op.archive "a", 2), (V1.Op.update "a" (Except.ok ⟨some "x", none⟩), 3)]).tasks
        "a").isSome ∧
    (lookupTask
        (V1.step ⟨sampleStore, 0⟩ (V1.Op.create (Except.ok archPayload)) 4).tasks
        (uuidNew 0).1).isSome ∧
    (V1.getTasks
        (V1.runOps ⟨sampleStore, 0⟩
          [(V1.Op.archive "a", 2), (V1.Op.update "a" (Except.ok ⟨some "x", none⟩), 3)]).tasks).1 =
      (V1.runOps ⟨sampleStore, 0⟩
          [(V1.Op.archive "a", 2), (V1.Op.update "a" (Except.ok ⟨some "x", none⟩), 3)]).tasks.map
        (fun p => p.2) ∧
    (∀ k, (lookupTask sampleStore k).isSome →
        (lookupTask (V2.MapDB.AddTasks sampleStore [archPayload] 5) k).isSome) ∧
    (∀ k r, V2.MapDB.UpdateTask sampleStore ⟨some "x", none⟩ k 5 = Except.ok r →
        ∀ k2, (lookupTask sampleStore k2).isSome → (lookupTask r.2 k2).isSome) ∧
    (∀ k s2, V2.MapDB.ArchiveTask sampleStore k 5 = Except.ok s2 →
        ∀ k2, (lookupTask sampleStore k2).isSome → (lookupTask s2 k2).isSome) ∧
    (V2.MapDB.GetAllTasks sampleStore = sampleStore.map (fun p => p.2)) :=
  store_monotone_and_list_snapshot ⟨sampleStore, 0⟩
    [(V1.Op.archive "a", 2), (V1.Op.update "a" (Except.ok ⟨some "x", none⟩), 3)]
    "a" archPayload 4 sampleStore [archPayload] ⟨some "x", none⟩ 5 (by decide)

/-! ## C10 — reads never modify the store -/

/-- C10: the read operations leave the map exactly as it was: listing
(both variants) and fetching by id (the first variant's GET branch and
the second variant's `Server.GetTask`) return the store unchanged, for
every store and every id, present or absent. -/
theorem reads_leave_store_unchanged (tasks : Store) (id : String)
    (body : Except Unit UpdatePayload) (now : Nat) :
    (V1.getTasks tasks).2 = tasks ∧
    (V1.handlerTaskByID tasks id V1.Method.get body now).2 = tasks ∧
    (V2.Server.GetTask tasks id).2 = tasks ∧
    (V2.Server.GetAllTasks tasks).2.2 = tasks := by
  refine ⟨rfl, ?_, ?_, rfl⟩
  · unfold V1.handlerTaskByID
    cases lookupTask tasks id <;> rfl
  · unfold V2.Server.GetTask V2.MapDB.GetTask
    cases lookupTask tasks id <;> rfl

end HttpPractice
